import Mathlib

/-!
# Verification of the task_manager backend

A shallow embedding, in Lean 4, of the Express backend of the
task-manager repository: the registration/login route handlers
(`routes/auth.js`), the task CRUD route handlers (`routes/tasks.js`),
the authentication middleware (`middleware/auth.js`) and the reminder
cron job (`index.js`).  Route handlers are translated as pure functions
from an explicit store (the rows of the `users` / `tasks` tables) and a
request body to a new store and an HTTP response value.  External
libraries (bcrypt, jsonwebtoken) are modelled by their documented
contracts, as function parameters or idealized structures.

JavaScript strings are modelled by Lean `String` (ASCII inputs behave
identically); a JSON body field that may be absent (`undefined`),
`null`, or a string is modelled by `JsonVal`.
-/

set_option maxHeartbeats 1000000

namespace TaskManager

/-- A JSON request-body field as the JavaScript handlers see it:
absent (`undefined`), `null`, or a string value. -/
inductive JsonVal where
  | undef : JsonVal
  | null : JsonVal
  | str : String → JsonVal
deriving DecidableEq, Repr

namespace JsonVal

/-- JavaScript truthiness of a `JsonVal`: `undefined` and `null` are
falsy, a string is truthy iff it is non-empty. -/
def truthy : JsonVal → Bool
  | .str s => s ≠ ""
  | _ => false

/-- The string carried by a `JsonVal` (`""` for `undefined`/`null`;
only used on paths where validation has already ensured a string). -/
def getStr : JsonVal → String
  | .str s => s
  | _ => ""

end JsonVal

/-! ## `sanitizeInput` (middleware, lines 4–11)

```js
const sanitizeInput = (input) => {
    if (typeof input !== 'string') return input;
    return input
        .replace(/[<>]/g, '')
        .replace(/javascript:/gi, '')
        .replace(/on\w+=/gi, '')
        .trim();
};
```
Each regex replacement is translated as a left-to-right scan removing
leftmost non-overlapping matches, which is the semantics of a global
`String.replace` with `''`. -/

/-- Model of `replace(/[<>]/g, '')`: drop every `<` and `>` character. -/
def stripAngles (cs : List Char) : List Char :=
  cs.filter (fun c => decide (c ≠ '<') && decide (c ≠ '>'))

/-- Case-insensitive prefix test (`pat` given in lowercase), as the
`i` flag of a JavaScript regex performs on ASCII. -/
def matchesCI : List Char → List Char → Bool
  | [], _ => true
  | _ :: _, [] => false
  | p :: ps, c :: cs => c.toLower == p && matchesCI ps cs

/-- Fuel-indexed scanner for `replace(/javascript:/gi, '')`: remove
every case-insensitive occurrence of `javascript:`, scanning left to
right.  Each step consumes at least one character, so `cs.length` fuel
always suffices; the fuel only makes the recursion structural. -/
def removeJsProtoF : Nat → List Char → List Char
  | 0, cs => cs
  | _ + 1, [] => []
  | fuel + 1, c :: rest =>
    if matchesCI "javascript:".data (c :: rest) then
      removeJsProtoF fuel (List.drop 10 rest)
    else
      c :: removeJsProtoF fuel rest

/-- Model of `replace(/javascript:/gi, '')`. -/
def removeJsProto (cs : List Char) : List Char := removeJsProtoF cs.length cs

/-- JavaScript `\w`: ASCII letters, digits and underscore. -/
def isWordChar (c : Char) : Bool := c.isAlphanum || c == '_'

/-- Does `on\w+=` match at the head of the list (case-insensitive on
the `on`)?  Returns the remainder after the match.  A match needs `o`,
`n`, a non-empty maximal run of word characters, then `=`; because `=`
is not a word character, backtracking inside `\w+` can never produce a
different match. -/
def tryOnAttr : List Char → Option (List Char)
  | c1 :: c2 :: rest =>
    if c1.toLower == 'o' && c2.toLower == 'n' then
      let run := rest.takeWhile isWordChar
      let rem := rest.dropWhile isWordChar
      if run ≠ [] then
        match rem with
        | '=' :: tl => some tl
        | _ => none
      else none
    else none
  | _ => none

/-- Fuel-indexed scanner for `replace(/on\w+=/gi, '')`: remove every
match of `on\w+=`, scanning left to right.  A match consumes at least
three characters, so `cs.length` fuel always suffices. -/
def removeOnAttrsF : Nat → List Char → List Char
  | 0, cs => cs
  | _ + 1, [] => []
  | fuel + 1, c :: rest =>
    match tryOnAttr (c :: rest) with
    | some rem => removeOnAttrsF fuel rem
    | none => c :: removeOnAttrsF fuel rest

/-- Model of `replace(/on\w+=/gi, '')`. -/
def removeOnAttrs (cs : List Char) : List Char := removeOnAttrsF cs.length cs

/-- JavaScript `String.prototype.trim`: drop whitespace from both
ends. -/
def trimEnds (cs : List Char) : List Char :=
  ((cs.dropWhile Char.isWhitespace).reverse.dropWhile Char.isWhitespace).reverse

/-- JavaScript `String.prototype.trim` on a string. -/
def jsTrim (s : String) : String := ⟨trimEnds s.data⟩

/-- JavaScript `String.prototype.toLowerCase` (ASCII data). -/
def jsToLower (s : String) : String := ⟨s.data.map Char.toLower⟩

/-- JavaScript `String.prototype.includes` with a one-character
needle. -/
def jsIncludes (s : String) (c : Char) : Bool := s.data.contains c

/-- Function `sanitizeInput` from `middleware/auth.js` (and, identically,
`middleware/validation.js`): strip `<`/`>`, remove `javascript:`
occurrences, remove `on\w+=` patterns, then trim. -/
def sanitizeInput (s : String) : String :=
  ⟨trimEnds (removeOnAttrs (removeJsProto (stripAngles s.data)))⟩

/-! ## Data model: `users` and `tasks` rows

From the SQLite schema in `database.js`: `users(id, name, email UNIQUE,
password, created_at, updated_at)` and `tasks(id, title, description,
status, deadline, reminder_time, user_id, created_at, updated_at)`.
Row identifiers and timestamps assigned by the database are modelled as
`Nat`; `deadline`, `reminder_time` and `status` may be SQL `NULL`, so
they are `Option String` (timestamp columns keep the textual value the
route binds, as SQLite does). -/

structure User where
  id : Nat
  name : String
  email : String
  password : String
  created_at : Nat
deriving DecidableEq, Repr

/-- The `users` table plus the next `AUTOINCREMENT` id. -/
structure UserStore where
  users : List User
  nextUserId : Nat
deriving DecidableEq, Repr

structure Task where
  id : Nat
  title : String
  description : String
  status : Option String
  deadline : Option String
  reminder_time : Option String
  user_id : Nat
  created_at : Nat
  updated_at : Nat
deriving DecidableEq, Repr

/-- The `tasks` table plus the next `AUTOINCREMENT` id. -/
structure TaskStore where
  tasks : List Task
  nextTaskId : Nat
deriving DecidableEq, Repr

/-! ## JWT issuance and verification (`middleware/auth.js`)

The `jsonwebtoken` library is an external collaborator; per its
documented contract a signed token carries its claims and verifies
exactly when checked with the signing secret and before `exp`.  A
token is therefore modelled as its decoded claims together with the
secret that signed it. -/

structure TokenPayload where
  userId : Nat
  iat : Nat
  type : String
deriving DecidableEq, Repr

structure Token where
  payload : TokenPayload
  exp : Nat
  issuer : String
  audience : String
  secret : String
deriving DecidableEq, Repr

/-- Function `generateToken` (auth middleware, lines 251–265): payload
`{userId, iat: now, type: 'access'}`, default options
`expiresIn: '24h'`, issuer `task-manager-api`, audience
`task-manager-users` (the environment overrides are absent in the
deployment modelled here). -/
def generateToken (userId : Nat) (secret : String) (now : Nat) : Token :=
  { payload := { userId := userId, iat := now, type := "access" },
    exp := now + 86400,
    issuer := "task-manager-api",
    audience := "task-manager-users",
    secret := secret }

inductive JwtResult where
  | ok (payload : TokenPayload) (exp : Nat)
  | expired
  | invalid
deriving DecidableEq, Repr

/-- Model of `jwt.verify` per the library contract: signature valid iff the
secrets agree (checked before expiry), expired when `exp ≤ now`. -/
def jwtVerify (t : Token) (secret : String) (now : Nat) : JwtResult :=
  if t.secret ≠ secret then .invalid
  else if t.exp ≤ now then .expired
  else .ok t.payload t.exp

/-- Outcome of the authentication middleware: an error response, or
`next()` with `req.user = {userId, tokenIssuedAt, tokenExpiresAt}`. -/
inductive AuthOutcome where
  | err (status : Nat) (message : String) (code : String)
  | ok (userId : Nat) (iat : Nat) (exp : Nat)
deriving DecidableEq, Repr

/-- JavaScript `String.prototype.split` with a one-character
separator. -/
def splitOnChar (sep : Char) : List Char → List (List Char)
  | [] => [[]]
  | c :: rest =>
    if c = sep then [] :: splitOnChar sep rest
    else
      match splitOnChar sep rest with
      | [] => [[c]]
      | p :: ps => (c :: p) :: ps

/-- Model of `authHeader.split(' ')`. -/
def splitSp (cs : List Char) : List (List Char) := splitOnChar ' ' cs

/-- Middleware `authenticateToken` (auth middleware, lines 186–248).  The header
is split on spaces and segment 1 taken (`authHeader.split(' ')[1]`);
`decode` is the library's parsing of the compact token serialization,
abstract here because real tokens are base64 strings. -/
def authenticateToken (authHeader : Option String)
    (decode : List Char → Option Token) (secret : String) (now : Nat) :
    AuthOutcome :=
  match authHeader with
  | none => .err 401 "Access token required" "MISSING_TOKEN"
  | some h =>
    match (splitSp h.data).get? 1 with
    | none => .err 401 "Invalid token format" "INVALID_TOKEN_FORMAT"
    | some tk =>
      if tk = [] then .err 401 "Invalid token format" "INVALID_TOKEN_FORMAT"
      else
        match decode tk with
        | none => .err 401 "Invalid token" "INVALID_TOKEN"
        | some t =>
          match jwtVerify t secret now with
          | .expired => .err 401 "Token has expired" "TOKEN_EXPIRED"
          | .invalid => .err 401 "Invalid token" "INVALID_TOKEN"
          | .ok p e => .ok p.userId p.iat e

/-! ## Registration and login (`routes/auth.js`)

The route file defines its own hand-rolled validators
(`validateRegistration`, `validateLogin`, lines 13–95) and the two
handlers.  `getRow('... WHERE email = ?')` is the first user whose
email equals the argument; `runQuery('INSERT INTO users ...')` appends
a row with the next id.  bcrypt is external: hashing and verification
are function parameters. -/

/-- The regex `/^[^\s@]+@[^\s@]+\.[^\s@]+$/` of the email check:
exactly one `@`; a non-empty whitespace-free local part; a non-empty
whitespace-free domain containing a `.` that is neither its first nor
its last character (the character classes admit `.`, so the regex
matches exactly when such an interior dot exists). -/
def emailRegexTest (s : String) : Bool :=
  match splitOnChar '@' s.data with
  | [loc, dom] =>
    loc ≠ [] && loc.all (fun c => !c.isWhitespace) &&
    dom.all (fun c => !c.isWhitespace) &&
    (List.range dom.length).any
      (fun i => dom.getD i ' ' == '.' && decide (1 ≤ i) &&
        decide (i + 2 ≤ dom.length))
  | _ => false

structure RegisterReq where
  name : JsonVal
  email : JsonVal
  password : JsonVal
  confirmPassword : JsonVal
deriving DecidableEq, Repr

/-- Name checks of `validateRegistration` (lines 17–24):
`!name || typeof name !== 'string'` then trimmed-length bounds. -/
def nameErrors (v : JsonVal) : List String :=
  match v with
  | .str s =>
    if s = "" then ["Name is required and must be a string"]
    else if (jsTrim s).length < 2 then ["Name must be at least 2 characters long"]
    else if (jsTrim s).length > 100 then ["Name cannot exceed 100 characters"]
    else []
  | _ => ["Name is required and must be a string"]

/-- Email checks of `validateRegistration` (lines 26–37): requiredness,
then the regex test and the length bound (both are checked, not
else-if). -/
def emailErrors (v : JsonVal) : List String :=
  match v with
  | .str s =>
    if s = "" then ["Email is required and must be a string"]
    else
      (if !emailRegexTest (jsTrim s) then ["Please provide a valid email address"] else []) ++
      (if (jsTrim s).length > 255 then ["Email cannot exceed 255 characters"] else [])
  | _ => ["Email is required and must be a string"]

/-- Password checks of `validateRegistration` (lines 39–46): only
requiredness and the 6–128 length bounds — the route performs no
character-class check. -/
def passwordErrors (v : JsonVal) : List String :=
  match v with
  | .str s =>
    if s = "" then ["Password is required and must be a string"]
    else if s.length < 6 then ["Password must be at least 6 characters long"]
    else if s.length > 128 then ["Password cannot exceed 128 characters"]
    else []
  | _ => ["Password is required and must be a string"]

/-- Confirm-password checks of `validateRegistration` (lines 48–53). -/
def confirmErrors (password confirm : JsonVal) : List String :=
  match confirm with
  | .str c =>
    if c = "" then ["Password confirmation is required"]
    else if password ≠ JsonVal.str c then ["Passwords do not match"]
    else []
  | _ => ["Password confirmation is required"]

/-- Validator `validateRegistration` (routes/auth.js, lines 13–65): the errors
collected, in push order; the middleware answers 400 iff the list is
non-empty. -/
def validateRegistration (r : RegisterReq) : List String :=
  nameErrors r.name ++ emailErrors r.email ++
    passwordErrors r.password ++ confirmErrors r.password r.confirmPassword

structure AuthData where
  userId : Nat
  name : String
  email : String
  token : Token
  createdAt : Nat
deriving DecidableEq, Repr

/-- Response of an auth endpoint: HTTP status plus the JSON body
`{success, message, errors?, code?, data?}`. -/
structure AuthResp where
  status : Nat
  success : Bool
  message : String
  code : Option String
  errors : List String
  data : Option AuthData
deriving DecidableEq, Repr

/-- Route `POST /api/auth/register` (routes/auth.js, lines 98–205), including
the `validateRegistration` middleware.  `hash` is `bcrypt.hash` with
its salt; `now` the database clock.  SQLite row ids start at 1; were
the reported insert id 0 the handler would throw after inserting
(`if (!insertResult.id) throw ...`) and answer 500. -/
def register (hash : String → String) (secret : String) (now : Nat)
    (store : UserStore) (r : RegisterReq) : UserStore × AuthResp :=
  let errs := validateRegistration r
  if errs ≠ [] then
    (store, { status := 400, success := false, message := "Validation failed",
              code := some "VALIDATION_ERROR", errors := errs, data := none })
  else
    let sanitizedName := sanitizeInput r.name.getStr
    let sanitizedEmail := jsToLower (sanitizeInput r.email.getStr)
    if sanitizedName.length < 2 then
      (store, { status := 400, success := false,
                message := "Name must be at least 2 characters long",
                code := some "INVALID_NAME", errors := [], data := none })
    else if sanitizedEmail.length = 0 ∨ ¬ jsIncludes sanitizedEmail '@' then
      (store, { status := 400, success := false,
                message := "Please provide a valid email address",
                code := some "INVALID_EMAIL", errors := [], data := none })
    else if r.password.getStr.length < 6 then
      (store, { status := 400, success := false,
                message := "Password must be at least 6 characters long",
                code := some "INVALID_PASSWORD", errors := [], data := none })
    else if r.password ≠ r.confirmPassword then
      (store, { status := 400, success := false,
                message := "Passwords do not match",
                code := some "PASSWORD_MISMATCH", errors := [], data := none })
    else
      match store.users.find? (fun u => u.email == sanitizedEmail) with
      | some _ =>
        (store, { status := 409, success := false,
                  message := "User with this email already exists",
                  code := some "USER_EXISTS", errors := [], data := none })
      | none =>
        let hashed := hash r.password.getStr
        let newUser : User :=
          { id := store.nextUserId, name := sanitizedName,
            email := sanitizedEmail, password := hashed, created_at := now }
        let store' : UserStore :=
          { users := store.users ++ [newUser], nextUserId := store.nextUserId + 1 }
        if store.nextUserId = 0 then
          (store', { status := 500, success := false,
                     message := "Internal server error during registration",
                     code := some "REGISTRATION_ERROR", errors := [], data := none })
        else
          (store', { status := 201, success := true,
                     message := "User registered successfully", code := none,
                     errors := [],
                     data := some { userId := newUser.id, name := newUser.name,
                                    email := newUser.email,
                                    token := generateToken newUser.id secret now,
                                    createdAt := newUser.created_at } })

structure LoginReq where
  email : JsonVal
  password : JsonVal
deriving DecidableEq, Repr

/-- Validator `validateLogin` (routes/auth.js, lines 67–95). -/
def validateLogin (r : LoginReq) : List String :=
  (match r.email with
   | .str s =>
     if s = "" then ["Email is required and must be a string"]
     else if (jsTrim s).length = 0 then ["Email cannot be empty"]
     else []
   | _ => ["Email is required and must be a string"]) ++
  (match r.password with
   | .str s =>
     if s = "" then ["Password is required and must be a string"]
     else if (jsTrim s).length = 0 then ["Password cannot be empty"]
     else []
   | _ => ["Password is required and must be a string"])

/-- Route `POST /api/auth/login` (routes/auth.js, lines 208–269), including
the `validateLogin` middleware.  `verify` is `bcrypt.compare`.  The
store is read-only here, so only the response is returned. -/
def login (verify : String → String → Bool) (secret : String) (now : Nat)
    (store : UserStore) (r : LoginReq) : AuthResp :=
  let errs := validateLogin r
  if errs ≠ [] then
    { status := 400, success := false, message := "Validation failed",
      code := some "VALIDATION_ERROR", errors := errs, data := none }
  else
    let sanitizedEmail := jsToLower (sanitizeInput r.email.getStr)
    match store.users.find? (fun u => u.email == sanitizedEmail) with
    | none =>
      { status := 401, success := false, message := "Invalid email or password",
        code := some "INVALID_CREDENTIALS", errors := [], data := none }
    | some user =>
      if ¬ verify r.password.getStr user.password then
        { status := 401, success := false, message := "Invalid email or password",
          code := some "INVALID_CREDENTIALS", errors := [], data := none }
      else
        { status := 200, success := true, message := "Login successful",
          code := none, errors := [],
          data := some { userId := user.id, name := user.name,
                         email := user.email,
                         token := generateToken user.id secret now,
                         createdAt := user.created_at } }

/-! ## Task routes (`routes/tasks.js`)

All task routes run behind `authenticateToken`; handlers receive the
resolved `req.user.userId`.  SQL statements are translated over the
task list: `getRow('... WHERE id = ? AND user_id = ?')` is the first
matching row, `UPDATE ... WHERE id = ? AND user_id = ?` maps over all
matching rows, `INSERT` appends a row with the next id. -/

/-- Test `['To Do', 'In Progress', 'Done'].includes(s)`. -/
def allowedStatus (s : String) : Bool :=
  s == "To Do" || s == "In Progress" || s == "Done"

/-- Response of a task endpoint: HTTP status plus the JSON body
`{success, message?, data?}`. -/
structure TaskResp where
  status : Nat
  success : Bool
  message : Option String
  data : Option Task
deriving DecidableEq, Repr

/-- Route `GET /api/tasks/:id` (routes/tasks.js, lines 44–73): the row with
this id owned by the authenticated user, else 404. -/
def getTask (store : TaskStore) (userId : Nat) (id : Nat) : TaskResp :=
  match store.tasks.find? (fun t => t.id == id && t.user_id == userId) with
  | none =>
    { status := 404, success := false, message := some "Task not found",
      data := none }
  | some t =>
    { status := 200, success := true, message := none, data := some t }

/-- A task-route request body (`{title, description, status, deadline,
reminder_time}`), each field possibly absent. -/
structure TaskReq where
  title : JsonVal
  description : JsonVal
  status : JsonVal
  deadline : JsonVal
  reminder_time : JsonVal
deriving DecidableEq, Repr

/-- Route `POST /api/tasks` (routes/tasks.js, lines 76–114).  The
destructuring default `status = 'To Do'` applies only to an absent
status; the status guard `status && !includes(...)` skips falsy values
(`null`, `''`), which are then inserted verbatim; `deadline || null`
and `reminder_time || null` turn falsy values into SQL `NULL`.  The
route's `data: result` echoes the driver's insert summary, not a task
row, and is not modelled (`data := none`). -/
def createTask (store : TaskStore) (userId : Nat) (now : Nat) (r : TaskReq) :
    TaskStore × TaskResp :=
  let st := match r.status with | .undef => JsonVal.str "To Do" | v => v
  if ¬ r.title.truthy ∨ jsTrim r.title.getStr = "" then
    (store, { status := 400, success := false,
              message := some "Task title is required", data := none })
  else if st.truthy ∧ ¬ allowedStatus st.getStr then
    (store, { status := 400, success := false,
              message := some "Invalid status. Must be one of: To Do, In Progress, Done",
              data := none })
  else
    let newTask : Task :=
      { id := store.nextTaskId,
        title := jsTrim r.title.getStr,
        description := jsTrim r.description.getStr,
        status := match st with | .str s => some s | _ => none,
        deadline := if r.deadline.truthy then some r.deadline.getStr else none,
        reminder_time :=
          if r.reminder_time.truthy then some r.reminder_time.getStr else none,
        user_id := userId, created_at := now, updated_at := now }
    ({ tasks := store.tasks ++ [newTask], nextTaskId := store.nextTaskId + 1 },
     { status := 201, success := true,
       message := some "Task created successfully", data := none })

/-- The row produced by the dynamically built
`UPDATE tasks SET ... , updated_at = CURRENT_TIMESTAMP`: each field
present in the body (`!== undefined`) is overwritten — `title` by its
trim, `description` by `description?.trim() || ''`, the rest verbatim
(`null` becomes SQL `NULL`) — and `updated_at` is set to the current
time.  Absent fields keep their stored values. -/
def updatedTaskOf (t : Task) (r : TaskReq) (now : Nat) : Task :=
  { t with
    title := match r.title with | .str s => jsTrim s | _ => t.title,
    description :=
      match r.description with
      | .undef => t.description
      | .null => ""
      | .str s => jsTrim s,
    status := match r.status with | .undef => t.status | .null => none | .str s => some s,
    deadline := match r.deadline with | .undef => t.deadline | .null => none | .str s => some s,
    reminder_time :=
      match r.reminder_time with
      | .undef => t.reminder_time
      | .null => none
      | .str s => some s,
    updated_at := now }

/-- Condition `updates.length === 0`: no recognized field key is present. -/
def updNoFields (r : TaskReq) : Prop :=
  r.title = JsonVal.undef ∧ r.description = JsonVal.undef ∧
  r.status = JsonVal.undef ∧ r.deadline = JsonVal.undef ∧
  r.reminder_time = JsonVal.undef

instance (r : TaskReq) : Decidable (updNoFields r) := by
  unfold updNoFields
  infer_instance

/-- Route `PUT /api/tasks/:id` (routes/tasks.js, lines 117–210): ownership
check, then validation, then the dynamic update and a reload by id
alone.  A `null` title reaches `title.trim()` and throws, which the
catch block answers with 500. -/
def updateTask (store : TaskStore) (userId : Nat) (id : Nat) (now : Nat)
    (r : TaskReq) : TaskStore × TaskResp :=
  match store.tasks.find? (fun t => t.id == id && t.user_id == userId) with
  | none =>
    (store, { status := 404, success := false,
              message := some "Task not found", data := none })
  | some _ =>
    if r.title = JsonVal.null then
      (store, { status := 500, success := false,
                message := some "Internal server error", data := none })
    else if r.title ≠ JsonVal.undef ∧ jsTrim r.title.getStr = "" then
      (store, { status := 400, success := false,
                message := some "Task title cannot be empty", data := none })
    else if r.status.truthy ∧ ¬ allowedStatus r.status.getStr then
      (store, { status := 400, success := false,
                message := some "Invalid status. Must be one of: To Do, In Progress, Done",
                data := none })
    else if updNoFields r then
      (store, { status := 400, success := false,
                message := some "No fields to update", data := none })
    else
      let tasks' := store.tasks.map
        (fun t => if t.id = id ∧ t.user_id = userId then updatedTaskOf t r now else t)
      ({ store with tasks := tasks' },
       { status := 200, success := true,
         message := some "Task updated successfully",
         data := tasks'.find? (fun t => t.id == id) })

/-! ## Reminder sweep (`index.js`, lines 200–220)

`cron.schedule('* * * * *', ...)` runs
`SELECT t.*, u.email FROM tasks t JOIN users u ON t.user_id = u.id
WHERE t.reminder_time <= ? AND t.status != ?` with
`[now.toISOString(), 'Done']` and logs each row.  The job only reads:
it is a pure function of the two tables and the clock.  SQL comparisons
with `NULL` are not true, so rows with a `NULL` reminder time or a
`NULL` status are never selected; `<=` on the textual timestamps is
SQLite TEXT comparison, i.e. lexicographic order. -/

/-- SQLite TEXT comparison (memcmp order) on the character sequences:
the `<=` the sweep query applies to the stored reminder text and the
bound `now.toISOString()` parameter. -/
def sqliteTextLe : List Char → List Char → Bool
  | [], _ => true
  | _ :: _, [] => false
  | c :: cs, d :: ds =>
    if c < d then true else if d < c then false else sqliteTextLe cs ds

/-- The row filter `t.reminder_time <= now AND t.status != 'Done'`
under SQL three-valued logic: a comparison with `NULL` is not true, so
rows with a `NULL` reminder time or a `NULL` status fail the filter. -/
def dueReminder (t : Task) (now : String) : Bool :=
  (match t.reminder_time with
   | some r => sqliteTextLe r.data now.data
   | none => false) &&
  (match t.status with
   | some s => s != "Done"
   | none => false)

/-- One run of the reminder job: the due tasks joined with the owning
user's email. -/
def reminderSweep (tasks : List Task) (users : List User) (now : String) :
    List (Task × String) :=
  (tasks.filter (fun t => dueReminder t now)).filterMap
    (fun t => (users.find? (fun u => u.id == t.user_id)).map (fun u => (t, u.email)))

/-! ### Character-conservation lemmas for the sanitizer -/

theorem mem_removeJsProtoF {c : Char} : ∀ {fuel : Nat} {cs : List Char},
    c ∈ removeJsProtoF fuel cs → c ∈ cs := by
  intro fuel
  induction fuel with
  | zero => intro cs h; exact h
  | succ f ih =>
    intro cs h
    match cs with
    | [] => exact h
    | d :: rest =>
      rw [removeJsProtoF] at h
      by_cases hm : matchesCI "javascript:".data (d :: rest) = true
      · rw [if_pos hm] at h
        exact List.mem_cons_of_mem d (List.mem_of_mem_drop (ih h))
      · rw [if_neg hm] at h
        rcases List.mem_cons.mp h with h | h
        · exact h ▸ List.mem_cons_self d rest
        · exact List.mem_cons_of_mem d (ih h)

theorem mem_removeJsProto {c : Char} {cs : List Char}
    (h : c ∈ removeJsProto cs) : c ∈ cs :=
  mem_removeJsProtoF h

theorem tryOnAttr_sublist {cs rem : List Char} (h : tryOnAttr cs = some rem) :
    ∀ c ∈ rem, c ∈ cs := by
  match cs with
  | [] => simp [tryOnAttr] at h
  | [c] => simp [tryOnAttr] at h
  | c1 :: c2 :: rest =>
    simp only [tryOnAttr] at h
    split at h
    · split at h
      · split at h
        · rename_i heq
          cases h
          intro c hc
          have h1 : c ∈ rest.dropWhile isWordChar := by
            rw [heq]; exact List.mem_cons_of_mem _ hc
          have h2 : c ∈ rest := by
            have := rest.takeWhile_append_dropWhile (p := isWordChar)
            rw [← this]
            exact List.mem_append_right _ h1
          exact List.mem_cons_of_mem c1 (List.mem_cons_of_mem c2 h2)
        · exact Option.noConfusion h
      · exact Option.noConfusion h
    · exact Option.noConfusion h

theorem mem_removeOnAttrsF {c : Char} : ∀ {fuel : Nat} {cs : List Char},
    c ∈ removeOnAttrsF fuel cs → c ∈ cs := by
  intro fuel
  induction fuel with
  | zero => intro cs h; exact h
  | succ f ih =>
    intro cs h
    match cs with
    | [] => exact h
    | d :: rest =>
      rw [removeOnAttrsF] at h
      match hm : tryOnAttr (d :: rest) with
      | some rem =>
        rw [hm] at h
        exact tryOnAttr_sublist hm c (ih h)
      | none =>
        rw [hm] at h
        rcases List.mem_cons.mp h with h | h
        · exact h ▸ List.mem_cons_self d rest
        · exact List.mem_cons_of_mem d (ih h)

theorem mem_removeOnAttrs {c : Char} {cs : List Char}
    (h : c ∈ removeOnAttrs cs) : c ∈ cs :=
  mem_removeOnAttrsF h

theorem mem_trimEnds {c : Char} {cs : List Char} (h : c ∈ trimEnds cs) :
    c ∈ cs := by
  unfold trimEnds at h
  rw [List.mem_reverse] at h
  have h1 := (cs.dropWhile Char.isWhitespace).reverse.dropWhile_sublist
    (p := Char.isWhitespace)
  have h2 : c ∈ (cs.dropWhile Char.isWhitespace).reverse := h1.mem h
  rw [List.mem_reverse] at h2
  exact (cs.dropWhile_sublist (p := Char.isWhitespace)).mem h2

theorem head_dropWhile_not {p : Char → Bool} : ∀ {cs : List Char} {c : Char},
    (cs.dropWhile p).head? = some c → p c = false := by
  intro cs
  induction cs with
  | nil => intro c h; simp [List.dropWhile] at h
  | cons d rest ih =>
    intro c h
    by_cases hd : p d
    · rw [List.dropWhile_cons, if_pos hd] at h
      exact ih h
    · rw [List.dropWhile_cons, if_neg hd] at h
      simp only [List.head?_cons, Option.some.injEq] at h
      subst h
      simpa using hd

theorem trimEnds_getLast_not_ws {cs : List Char} {c : Char}
    (h : (trimEnds cs).getLast? = some c) : c.isWhitespace = false := by
  unfold trimEnds at h
  rw [List.getLast?_reverse] at h
  exact head_dropWhile_not h

theorem trimEnds_head_not_ws {cs : List Char} {c : Char}
    (h : (trimEnds cs).head? = some c) : c.isWhitespace = false := by
  unfold trimEnds at h
  rw [List.head?_reverse] at h
  have hBne :
      (List.dropWhile Char.isWhitespace cs).reverse.dropWhile Char.isWhitespace ≠ [] := by
    intro hnil
    rw [hnil] at h
    simp at h
  have hsplit := (List.dropWhile Char.isWhitespace cs).reverse.takeWhile_append_dropWhile
    (p := Char.isWhitespace)
  have hlast : (List.dropWhile Char.isWhitespace cs).reverse.getLast? = some c := by
    rw [← hsplit, List.getLast?_append_of_ne_nil _ hBne]
    exact h
  rw [List.getLast?_reverse] at hlast
  exact head_dropWhile_not hlast


theorem splitOnChar_no_sep {sep : Char} {cs : List Char} (h : sep ∉ cs) :
    splitOnChar sep cs = [cs] := by
  induction cs with
  | nil => rfl
  | cons c rest ih =>
    have hc : c ≠ sep := fun hcc => h (hcc ▸ List.mem_cons_self c rest)
    have hrest : sep ∉ rest := fun hm => h (List.mem_cons_of_mem c hm)
    rw [splitOnChar, if_neg hc, ih hrest]

theorem splitSp_no_space {cs : List Char} (h : ' ' ∉ cs) :
    splitSp cs = [cs] :=
  splitOnChar_no_sep h

theorem splitSp_bearer (e : List Char) :
    splitSp ('B' :: 'e' :: 'a' :: 'r' :: 'e' :: 'r' :: ' ' :: e) =
      ['B', 'e', 'a', 'r', 'e', 'r'] :: splitSp e := by
  simp [splitSp, splitOnChar]


/-! ## Claim theorems -/

/-- C1: for every stored task `t` and every authenticated identity
`uid` other than `t`'s owning user id (ids being unique as the
`tasks` primary key guarantees), `getTask` answers the literal 404
`Task not found` response — carrying no field of `t` — and that
response is identical to the response for an identifier `fresh` that
matches no task at all. -/
theorem getTask_crossOwner_notFound (store : TaskStore) (t : Task)
    (uid fresh : Nat)
    (hmem : t ∈ store.tasks)
    (huniq : ∀ t1 ∈ store.tasks, ∀ t2 ∈ store.tasks, t1.id = t2.id → t1 = t2)
    (hne : uid ≠ t.user_id)
    (hfresh : ∀ u ∈ store.tasks, u.id ≠ fresh) :
    getTask store uid t.id =
      { status := 404, success := false, message := some "Task not found",
        data := none } ∧
    getTask store uid t.id = getTask store uid fresh := by
  have h1 : store.tasks.find? (fun x => x.id == t.id && x.user_id == uid) = none := by
    rw [List.find?_eq_none]
    intro x hx hbx
    simp only [Bool.and_eq_true, beq_iff_eq] at hbx
    obtain ⟨hid, hu⟩ := hbx
    exact hne ((huniq x hx t hmem hid ▸ hu).symm ▸ rfl)
  have h2 : store.tasks.find? (fun x => x.id == fresh && x.user_id == uid) = none := by
    rw [List.find?_eq_none]
    intro x hx hbx
    simp only [Bool.and_eq_true, beq_iff_eq] at hbx
    exact hfresh x hx hbx.1
  unfold getTask
  rw [h1, h2]
  exact ⟨rfl, rfl⟩

/-- Witness for C1: a store holding one task of user 1; user 2 asks
for it and for the absent id 99. -/
theorem getTask_crossOwner_notFound_witness :
    getTask { tasks := [{ id := 1, title := "A", description := "",
                          status := some "To Do", deadline := none,
                          reminder_time := none, user_id := 1,
                          created_at := 0, updated_at := 0 }],
              nextTaskId := 2 } 2 1 =
      { status := 404, success := false, message := some "Task not found",
        data := none } ∧
    getTask { tasks := [{ id := 1, title := "A", description := "",
                          status := some "To Do", deadline := none,
                          reminder_time := none, user_id := 1,
                          created_at := 0, updated_at := 0 }],
              nextTaskId := 2 } 2 1 =
    getTask { tasks := [{ id := 1, title := "A", description := "",
                          status := some "To Do", deadline := none,
                          reminder_time := none, user_id := 1,
                          created_at := 0, updated_at := 0 }],
              nextTaskId := 2 } 2 99 :=
  getTask_crossOwner_notFound _
    { id := 1, title := "A", description := "", status := some "To Do",
      deadline := none, reminder_time := none, user_id := 1,
      created_at := 0, updated_at := 0 }
    2 99 (by decide) (by decide) (by decide) (by decide)

/-- C2: a login whose (validated) email matches no stored user and a
login whose email matches a stored user but whose password fails
bcrypt verification produce equal `AuthResp` values, both with HTTP
status 401 — the two failure branches of the handler emit the same
literal body. -/
theorem login_unknownEmail_eq_wrongPassword
    (verify : String → String → Bool) (secret : String) (now1 now2 : Nat)
    (store : UserStore) (r1 r2 : LoginReq) (u : User)
    (hv1 : validateLogin r1 = [])
    (hv2 : validateLogin r2 = [])
    (h1 : store.users.find?
      (fun x => x.email == jsToLower (sanitizeInput r1.email.getStr)) = none)
    (h2 : store.users.find?
      (fun x => x.email == jsToLower (sanitizeInput r2.email.getStr)) = some u)
    (hverify : verify r2.password.getStr u.password = false) :
    login verify secret now1 store r1 = login verify secret now2 store r2 ∧
    (login verify secret now1 store r1).status = 401 := by
  unfold login
  rw [hv1, hv2]
  simp only [ne_eq, not_true_eq_false, if_false, reduceIte]
  rw [h1, h2]
  simp [hverify]

/-- Witness for C2: one stored user `ann@x.com` with hash `H`; a
verifier accepting only the exact hash; login as `bob@x.com` (unknown)
and as `ann@x.com` with a wrong password. -/
theorem login_unknownEmail_eq_wrongPassword_witness :
    login (fun p h => h == String.append "H" p) "s" 3
      { users := [{ id := 1, name := "Ann", email := "ann@x.com",
                    password := "Habcdef", created_at := 0 }],
        nextUserId := 2 }
      { email := .str "bob@x.com", password := .str "abcdef" } =
    login (fun p h => h == String.append "H" p) "s" 4
      { users := [{ id := 1, name := "Ann", email := "ann@x.com",
                    password := "Habcdef", created_at := 0 }],
        nextUserId := 2 }
      { email := .str "ann@x.com", password := .str "wrongpw" } ∧
    (login (fun p h => h == String.append "H" p) "s" 3
      { users := [{ id := 1, name := "Ann", email := "ann@x.com",
                    password := "Habcdef", created_at := 0 }],
        nextUserId := 2 }
      { email := .str "bob@x.com", password := .str "abcdef" }).status = 401 :=
  login_unknownEmail_eq_wrongPassword (fun p h => h == String.append "H" p)
    "s" 3 4
    { users := [{ id := 1, name := "Ann", email := "ann@x.com",
                  password := "Habcdef", created_at := 0 }],
      nextUserId := 2 }
    { email := .str "bob@x.com", password := .str "abcdef" }
    { email := .str "ann@x.com", password := .str "wrongpw" }
    { id := 1, name := "Ann", email := "ann@x.com", password := "Habcdef",
      created_at := 0 }
    (by decide) (by decide) (by decide) (by decide) (by decide)

/-- A `JsonVal` is truthy exactly when it is a non-empty string. -/
theorem JsonVal.truthy_iff {v : JsonVal} :
    v.truthy = true ↔ ∃ s, v = JsonVal.str s ∧ s ≠ "" := by
  cases v <;> simp [JsonVal.truthy]

/-- C3 counterexample: the wired registration route checks only the
password's length, so the registration of `Ann` with password
`abcdef` — no uppercase letter, no digit — is accepted: 201 and one
user row inserted, refuting \"fails with ValidationError and no User
row is created\". -/
theorem register_noCharClass_counterexample :
    (register (fun p => String.append "H" p) "s" 7
      { users := [], nextUserId := 1 }
      { name := .str "Ann", email := .str "ann@x.com",
        password := .str "abcdef", confirmPassword := .str "abcdef" }).2.status = 201 ∧
    (register (fun p => String.append "H" p) "s" 7
      { users := [], nextUserId := 1 }
      { name := .str "Ann", email := .str "ann@x.com",
        password := .str "abcdef", confirmPassword := .str "abcdef" }).1.users.length = 1 := by
  exact ⟨by decide, by decide⟩

/-- C3 (amended): the wired route rejects only on length — a
registration whose password is a string of length outside 6–128 fails
with the 400 `VALIDATION_ERROR` response and leaves the user store
unchanged; the lowercase/uppercase/digit requirements live solely in
the unwired declarative validator and are not enforced. -/
theorem register_passwordLength_rejected (hash : String → String)
    (secret : String) (now : Nat) (store : UserStore) (r : RegisterReq)
    (p : String) (hp : r.password = JsonVal.str p)
    (hlen : p.length < 6 ∨ 128 < p.length) :
    (register hash secret now store r).1 = store ∧
    (register hash secret now store r).2.status = 400 ∧
    (register hash secret now store r).2.code = some "VALIDATION_ERROR" := by
  have herr : passwordErrors r.password ≠ [] := by
    rw [hp]
    simp only [passwordErrors]
    rcases hlen with h | h
    · by_cases hpe : p = ""
      · simp [hpe]
      · rw [if_neg hpe, if_pos h]
        simp
    · have hpe : p ≠ "" := by
        intro hnil
        rw [hnil] at h
        simp [String.length] at h
      have h6 : ¬ p.length < 6 := by omega
      rw [if_neg hpe, if_neg h6, if_pos h]
      simp
  have hv : validateRegistration r ≠ [] := by
    unfold validateRegistration
    intro hnil
    rcases List.append_eq_nil.mp hnil with ⟨habc, -⟩
    rcases List.append_eq_nil.mp habc with ⟨-, hc⟩
    exact herr hc
  unfold register
  rw [if_pos hv]
  exact ⟨rfl, rfl, rfl⟩

/-- Witness for the amended C3: password `abc` (length 3). -/
theorem register_passwordLength_rejected_witness :
    (register (fun p => p) "s" 0 { users := [], nextUserId := 1 }
      { name := .str "Ann", email := .str "ann@x.com",
        password := .str "abc", confirmPassword := .str "abc" }).1 =
      { users := [], nextUserId := 1 } ∧
    (register (fun p => p) "s" 0 { users := [], nextUserId := 1 }
      { name := .str "Ann", email := .str "ann@x.com",
        password := .str "abc", confirmPassword := .str "abc" }).2.status = 400 ∧
    (register (fun p => p) "s" 0 { users := [], nextUserId := 1 }
      { name := .str "Ann", email := .str "ann@x.com",
        password := .str "abc", confirmPassword := .str "abc" }).2.code =
      some "VALIDATION_ERROR" :=
  register_passwordLength_rejected (fun p => p) "s" 0
    { users := [], nextUserId := 1 }
    { name := .str "Ann", email := .str "ann@x.com",
      password := .str "abc", confirmPassword := .str "abc" }
    "abc" rfl (Or.inl (by decide))

/-- C6 counterexample: `POST /api/tasks` performs no deadline parsing
at all — with deadline `not-a-timestamp` the route answers 201 and
inserts the row with that value stored verbatim, refuting \"fails with
ValidationError (HTTP 400) and no Task row is inserted\". -/
theorem createTask_badDeadline_counterexample :
    (createTask { tasks := [], nextTaskId := 1 } 1 5
      { title := .str "T", description := .undef, status := .undef,
        deadline := .str "not-a-timestamp", reminder_time := .undef }).2.status = 201 ∧
    (createTask { tasks := [], nextTaskId := 1 } 1 5
      { title := .str "T", description := .undef, status := .undef,
        deadline := .str "not-a-timestamp", reminder_time := .undef }).1.tasks.map
      Task.deadline = [some "not-a-timestamp"] := by
  exact ⟨by decide, by decide⟩

/-- C6 (amended): `createTask` never validates the deadline — for any
supplied deadline value, a request with a valid title and no status
succeeds with 201, and the stored deadline is the supplied string when
truthy and SQL `NULL` otherwise (`deadline || null`). -/
theorem createTask_deadline_unvalidated (store : TaskStore) (uid now : Nat)
    (r : TaskReq) (htitle : r.title.truthy = true)
    (htrim : jsTrim r.title.getStr ≠ "") (hstatus : r.status = JsonVal.undef) :
    (createTask store uid now r).2.status = 201 ∧
    ((createTask store uid now r).1.tasks.getLast?.map Task.deadline =
      some (if r.deadline.truthy then some r.deadline.getStr else none)) := by
  unfold createTask
  rw [hstatus]
  have hcond : ¬ (¬ r.title.truthy = true ∨ jsTrim r.title.getStr = "") := by
    push_neg
    exact ⟨htitle, htrim⟩
  rw [if_neg hcond]
  have hok : ¬ ((JsonVal.str "To Do").truthy = true ∧
      ¬ allowedStatus (JsonVal.str "To Do").getStr = true) := by
    decide
  rw [if_neg hok]
  refine ⟨rfl, ?_⟩
  simp

/-- Witness for the amended C6 at deadline `garbage`. -/
theorem createTask_deadline_unvalidated_witness :
    (createTask { tasks := [], nextTaskId := 1 } 1 5
      { title := .str "T", description := .undef, status := .undef,
        deadline := .str "garbage", reminder_time := .undef }).2.status = 201 ∧
    ((createTask { tasks := [], nextTaskId := 1 } 1 5
      { title := .str "T", description := .undef, status := .undef,
        deadline := .str "garbage", reminder_time := .undef }).1.tasks.getLast?.map
      Task.deadline =
      some (if (JsonVal.str "garbage").truthy then some (JsonVal.str "garbage").getStr
            else none)) :=
  createTask_deadline_unvalidated { tasks := [], nextTaskId := 1 } 1 5
    { title := .str "T", description := .undef, status := .undef,
      deadline := .str "garbage", reminder_time := .undef }
    (by decide) (by decide) rfl

/-- C4 counterexample: the status guard `status && !includes(...)`
skips falsy values, so `createTask` with the supplied status `""` —
a value outside \{To Do, In Progress, Done\} — answers 201 and stores
a task whose status is `""`, refuting both the stored-status invariant
and \"any supplied status value outside that set fails with
ValidationError\". -/
theorem createTask_emptyStatus_counterexample :
    (createTask { tasks := [], nextTaskId := 1 } 1 5
      { title := .str "T", description := .undef, status := .str "",
        deadline := .undef, reminder_time := .undef }).2.status = 201 ∧
    (createTask { tasks := [], nextTaskId := 1 } 1 5
      { title := .str "T", description := .undef, status := .str "",
        deadline := .undef, reminder_time := .undef }).1.tasks.map Task.status =
      [some ""] ∧
    allowedStatus "" = false := by
  exact ⟨by decide, by decide, by decide⟩

/-- C4 (amended): `createTask` with no status supplied stores
`To Do` and answers 201; a supplied **non-empty** status outside the
enumerated set makes `createTask` — and, for an owned task,
`updateTask` — answer the 400 invalid-status response leaving the
store unchanged.  A supplied empty-string or `null` status, however,
bypasses the guard and is stored verbatim, so the stored-status
invariant holds only for requests whose status is absent or a
non-empty string. -/
theorem task_status_validation (store : TaskStore) (uid id now : Nat)
    (r : TaskReq) (s : String)
    (htitle : r.title.truthy = true) (htrim : jsTrim r.title.getStr ≠ "") :
    (r.status = JsonVal.undef →
      (createTask store uid now r).2.status = 201 ∧
      (createTask store uid now r).1.tasks.getLast?.map Task.status =
        some (some "To Do")) ∧
    (r.status = JsonVal.str s → s ≠ "" → allowedStatus s = false →
      createTask store uid now r =
        (store,
         { status := 400, success := false,
           message := some "Invalid status. Must be one of: To Do, In Progress, Done",
           data := none }) ∧
      ((store.tasks.find? (fun t => t.id == id && t.user_id == uid)).isSome →
        updateTask store uid id now r =
          (store,
           { status := 400, success := false,
             message := some "Invalid status. Must be one of: To Do, In Progress, Done",
             data := none }))) := by
  have hcond : ¬ (¬ r.title.truthy = true ∨ jsTrim r.title.getStr = "") := by
    push_neg
    exact ⟨htitle, htrim⟩
  obtain ⟨ts, hts, htne⟩ := JsonVal.truthy_iff.mp htitle
  constructor
  · intro hstatus
    unfold createTask
    rw [hstatus, if_neg hcond]
    have hok : ¬ ((JsonVal.str "To Do").truthy = true ∧
        ¬ allowedStatus (JsonVal.str "To Do").getStr = true) := by decide
    rw [if_neg hok]
    exact ⟨rfl, by simp⟩
  · intro hstatus hne hbad
    constructor
    · unfold createTask
      rw [hstatus, if_neg hcond]
      have hbadc : (JsonVal.str s).truthy = true ∧
          ¬ allowedStatus (JsonVal.str s).getStr = true := by
        refine ⟨?_, ?_⟩
        · simp [JsonVal.truthy, hne]
        · simp [JsonVal.getStr, hbad]
      rw [if_pos hbadc]
    · intro hfound
      obtain ⟨t0, ht0⟩ := Option.isSome_iff_exists.mp hfound
      unfold updateTask
      rw [ht0]
      have hnn : r.title ≠ JsonVal.null := by
        rw [hts]
        intro hc
        exact JsonVal.noConfusion hc
      rw [if_neg hnn]
      have hte : ¬ (r.title ≠ JsonVal.undef ∧ jsTrim r.title.getStr = "") := by
        intro hc
        exact htrim hc.2
      rw [if_neg hte]
      have hbadc : r.status.truthy = true ∧
          ¬ allowedStatus r.status.getStr = true := by
        rw [hstatus]
        refine ⟨by simp [JsonVal.truthy, hne], by simp [JsonVal.getStr, hbad]⟩
      rw [if_pos hbadc]

/-- Witness for the amended C4: a one-task store of user 1, a request
carrying title `T` and the out-of-set status `Bogus`. -/
theorem task_status_validation_witness :
    ((JsonVal.str "Bogus" : JsonVal) = JsonVal.undef →
      (createTask { tasks := [{ id := 1, title := "A", description := "",
                                status := some "To Do", deadline := none,
                                reminder_time := none, user_id := 1,
                                created_at := 0, updated_at := 0 }],
                    nextTaskId := 2 } 1 5
        { title := .str "T", description := .undef, status := .str "Bogus",
          deadline := .undef, reminder_time := .undef }).2.status = 201 ∧
      (createTask { tasks := [{ id := 1, title := "A", description := "",
                                status := some "To Do", deadline := none,
                                reminder_time := none, user_id := 1,
                                created_at := 0, updated_at := 0 }],
                    nextTaskId := 2 } 1 5
        { title := .str "T", description := .undef, status := .str "Bogus",
          deadline := .undef, reminder_time := .undef }).1.tasks.getLast?.map
        Task.status = some (some "To Do")) ∧
    ((JsonVal.str "Bogus" : JsonVal) = JsonVal.str "Bogus" → "Bogus" ≠ "" →
      allowedStatus "Bogus" = false →
      createTask { tasks := [{ id := 1, title := "A", description := "",
                               status := some "To Do", deadline := none,
                               reminder_time := none, user_id := 1,
                               created_at := 0, updated_at := 0 }],
                   nextTaskId := 2 } 1 5
        { title := .str "T", description := .undef, status := .str "Bogus",
          deadline := .undef, reminder_time := .undef } =
        ({ tasks := [{ id := 1, title := "A", description := "",
                       status := some "To Do", deadline := none,
                       reminder_time := none, user_id := 1,
                       created_at := 0, updated_at := 0 }],
           nextTaskId := 2 },
         { status := 400, success := false,
           message := some "Invalid status. Must be one of: To Do, In Progress, Done",
           data := none }) ∧
      (((TaskStore.mk [{ id := 1, title := "A", description := "",
                         status := some "To Do", deadline := none,
                         reminder_time := none, user_id := 1,
                         created_at := 0, updated_at := 0 }] 2).tasks.find?
          (fun t => t.id == 1 && t.user_id == 1)).isSome →
        updateTask { tasks := [{ id := 1, title := "A", description := "",
                                 status := some "To Do", deadline := none,
                                 reminder_time := none, user_id := 1,
                                 created_at := 0, updated_at := 0 }],
                     nextTaskId := 2 } 1 1 5
          { title := .str "T", description := .undef, status := .str "Bogus",
            deadline := .undef, reminder_time := .undef } =
          ({ tasks := [{ id := 1, title := "A", description := "",
                         status := some "To Do", deadline := none,
                         reminder_time := none, user_id := 1,
                         created_at := 0, updated_at := 0 }],
             nextTaskId := 2 },
           { status := 400, success := false,
             message := some "Invalid status. Must be one of: To Do, In Progress, Done",
             data := none }))) :=
  task_status_validation
    { tasks := [{ id := 1, title := "A", description := "",
                  status := some "To Do", deadline := none,
                  reminder_time := none, user_id := 1,
                  created_at := 0, updated_at := 0 }],
      nextTaskId := 2 } 1 1 5
    { title := .str "T", description := .undef, status := .str "Bogus",
      deadline := .undef, reminder_time := .undef }
    "Bogus" (by decide) (by decide)

/-- The reload `SELECT * FROM tasks WHERE id = ?` after the dynamic
`UPDATE`: when ids are unique and `t` is the row the ownership check
found, the reload finds exactly the updated row. -/
theorem find?_map_update (l : List Task) (id uid : Nat) (t : Task)
    (r : TaskReq) (now : Nat)
    (hfind : l.find? (fun x => x.id == id && x.user_id == uid) = some t)
    (huniq : ∀ t1 ∈ l, ∀ t2 ∈ l, t1.id = t2.id → t1 = t2) :
    (l.map (fun x => if x.id = id ∧ x.user_id = uid then updatedTaskOf x r now
      else x)).find? (fun x => x.id == id) = some (updatedTaskOf t r now) := by
  induction l with
  | nil => simp at hfind
  | cons a l' ih =>
    rw [List.find?_cons] at hfind
    by_cases hpa : (a.id == id && a.user_id == uid) = true
    · simp only [hpa, Option.some.injEq] at hfind
      subst hfind
      simp only [Bool.and_eq_true, beq_iff_eq] at hpa
      rw [List.map_cons, if_pos ⟨hpa.1, hpa.2⟩, List.find?_cons]
      have hid : ((updatedTaskOf a r now).id == id) = true := by
        simp [updatedTaskOf, hpa.1]
      simp only [hid]
    · simp only [Bool.not_eq_true] at hpa
      simp only [hpa] at hfind
      have htmem : t ∈ l' := List.mem_of_find?_eq_some hfind
      have htp := List.find?_some hfind
      simp only [Bool.and_eq_true, beq_iff_eq] at htp
      have haid : ¬ a.id = id := by
        intro haid
        have hat : a = t := huniq a (List.mem_cons_self a l') t
          (List.mem_cons_of_mem a htmem) (by rw [haid, htp.1])
        rw [hat] at hpa
        simp [htp.1, htp.2] at hpa
      have haid' : (a.id == id) = false := by
        simpa using haid
      rw [List.map_cons, if_neg (fun hc => haid hc.1), List.find?_cons]
      simp only [haid']
      exact ih hfind (fun t1 h1 t2 h2 =>
        huniq t1 (List.mem_cons_of_mem a h1) t2 (List.mem_cons_of_mem a h2))

/-- C5: for an owned task `t` (ids unique) and an update request that
passes validation, `updateTask` rewrites exactly the present fields —
each absent field of `updatedTaskOf t r now` keeps its stored value —
refreshes `updated_at` to the current time, answers 200 with the
reloaded updated row, and a request presenting none of the five
recognized keys is rejected with 400 leaving the store unchanged. -/
theorem updateTask_frame (store : TaskStore) (uid id now : Nat)
    (r : TaskReq) (t : Task)
    (hfind : store.tasks.find? (fun x => x.id == id && x.user_id == uid) = some t)
    (huniq : ∀ t1 ∈ store.tasks, ∀ t2 ∈ store.tasks, t1.id = t2.id → t1 = t2)
    (htnull : r.title ≠ JsonVal.null)
    (htval : r.title ≠ JsonVal.undef → jsTrim r.title.getStr ≠ "")
    (hsval : r.status.truthy = true → allowedStatus r.status.getStr = true) :
    (¬ updNoFields r →
      updateTask store uid id now r =
        ({ store with
           tasks := store.tasks.map
             (fun x => if x.id = id ∧ x.user_id = uid then updatedTaskOf x r now
               else x) },
         { status := 200, success := true,
           message := some "Task updated successfully",
           data := some (updatedTaskOf t r now) }) ∧
      (r.title = JsonVal.undef → (updatedTaskOf t r now).title = t.title) ∧
      (r.description = JsonVal.undef →
        (updatedTaskOf t r now).description = t.description) ∧
      (r.status = JsonVal.undef → (updatedTaskOf t r now).status = t.status) ∧
      (r.deadline = JsonVal.undef →
        (updatedTaskOf t r now).deadline = t.deadline) ∧
      (r.reminder_time = JsonVal.undef →
        (updatedTaskOf t r now).reminder_time = t.reminder_time) ∧
      (updatedTaskOf t r now).updated_at = now) ∧
    (updNoFields r →
      updateTask store uid id now r =
        (store, { status := 400, success := false,
                  message := some "No fields to update", data := none })) := by
  have hte : ¬ (r.title ≠ JsonVal.undef ∧ jsTrim r.title.getStr = "") := by
    intro hc
    exact htval hc.1 hc.2
  have hse : ¬ (r.status.truthy = true ∧ ¬ allowedStatus r.status.getStr = true) := by
    intro hc
    exact hc.2 (hsval hc.1)
  constructor
  · intro hnf
    refine ⟨?_, ?_, ?_, ?_, ?_, ?_, rfl⟩
    · unfold updateTask
      simp only [hfind]
      rw [if_neg htnull, if_neg hte, if_neg hse, if_neg hnf]
      rw [find?_map_update store.tasks id uid t r now hfind huniq]
    · intro h
      simp [updatedTaskOf, h]
    · intro h
      simp [updatedTaskOf, h]
    · intro h
      simp [updatedTaskOf, h]
    · intro h
      simp [updatedTaskOf, h]
    · intro h
      simp [updatedTaskOf, h]
  · intro hnf
    unfold updateTask
    simp only [hfind]
    rw [if_neg htnull, if_neg hte, if_neg hse, if_pos hnf]

/-- Witness for C5: user 1 updates the title and status of their
task 1, leaving description, deadline and reminder absent. -/
theorem updateTask_frame_witness :
    (¬ updNoFields { title := .str " New ", description := .undef,
                     status := .str "Done", deadline := .undef,
                     reminder_time := .undef } →
      updateTask { tasks := [{ id := 1, title := "A", description := "d",
                               status := some "To Do",
                               deadline := some "2025-01-01",
                               reminder_time := some "2025-01-01",
                               user_id := 1, created_at := 0,
                               updated_at := 0 }],
                   nextTaskId := 2 } 1 1 9
          { title := .str " New ", description := .undef,
            status := .str "Done", deadline := .undef,
            reminder_time := .undef } =
        ({ tasks := [{ id := 1, title := "A", description := "d",
                       status := some "To Do",
                       deadline := some "2025-01-01",
                       reminder_time := some "2025-01-01",
                       user_id := 1, created_at := 0,
                       updated_at := 0 }].map
             (fun x => if x.id = 1 ∧ x.user_id = 1 then
               updatedTaskOf x { title := .str " New ", description := .undef,
                                 status := .str "Done", deadline := .undef,
                                 reminder_time := .undef } 9 else x),
           nextTaskId := 2 },
         { status := 200, success := true,
           message := some "Task updated successfully",
           data := some (updatedTaskOf
             { id := 1, title := "A", description := "d",
               status := some "To Do", deadline := some "2025-01-01",
               reminder_time := some "2025-01-01", user_id := 1,
               created_at := 0, updated_at := 0 }
             { title := .str " New ", description := .undef,
               status := .str "Done", deadline := .undef,
               reminder_time := .undef } 9) }) ∧
      ((JsonVal.str " New " : JsonVal) = JsonVal.undef →
        (updatedTaskOf
          { id := 1, title := "A", description := "d",
            status := some "To Do", deadline := some "2025-01-01",
            reminder_time := some "2025-01-01", user_id := 1,
            created_at := 0, updated_at := 0 }
          { title := .str " New ", description := .undef,
            status := .str "Done", deadline := .undef,
            reminder_time := .undef } 9).title = "A") ∧
      ((JsonVal.undef : JsonVal) = JsonVal.undef →
        (updatedTaskOf
          { id := 1, title := "A", description := "d",
            status := some "To Do", deadline := some "2025-01-01",
            reminder_time := some "2025-01-01", user_id := 1,
            created_at := 0, updated_at := 0 }
          { title := .str " New ", description := .undef,
            status := .str "Done", deadline := .undef,
            reminder_time := .undef } 9).description = "d") ∧
      ((JsonVal.str "Done" : JsonVal) = JsonVal.undef →
        (updatedTaskOf
          { id := 1, title := "A", description := "d",
            status := some "To Do", deadline := some "2025-01-01",
            reminder_time := some "2025-01-01", user_id := 1,
            created_at := 0, updated_at := 0 }
          { title := .str " New ", description := .undef,
            status := .str "Done", deadline := .undef,
            reminder_time := .undef } 9).status = some "To Do") ∧
      ((JsonVal.undef : JsonVal) = JsonVal.undef →
        (updatedTaskOf
          { id := 1, title := "A", description := "d",
            status := some "To Do", deadline := some "2025-01-01",
            reminder_time := some "2025-01-01", user_id := 1,
            created_at := 0, updated_at := 0 }
          { title := .str " New ", description := .undef,
            status := .str "Done", deadline := .undef,
            reminder_time := .undef } 9).deadline = some "2025-01-01") ∧
      ((JsonVal.undef : JsonVal) = JsonVal.undef →
        (updatedTaskOf
          { id := 1, title := "A", description := "d",
            status := some "To Do", deadline := some "2025-01-01",
            reminder_time := some "2025-01-01", user_id := 1,
            created_at := 0, updated_at := 0 }
          { title := .str " New ", description := .undef,
            status := .str "Done", deadline := .undef,
            reminder_time := .undef } 9).reminder_time = some "2025-01-01") ∧
      (updatedTaskOf
        { id := 1, title := "A", description := "d",
          status := some "To Do", deadline := some "2025-01-01",
          reminder_time := some "2025-01-01", user_id := 1,
          created_at := 0, updated_at := 0 }
        { title := .str " New ", description := .undef,
          status := .str "Done", deadline := .undef,
          reminder_time := .undef } 9).updated_at = 9) ∧
    (updNoFields { title := .str " New ", description := .undef,
                   status := .str "Done", deadline := .undef,
                   reminder_time := .undef } →
      updateTask { tasks := [{ id := 1, title := "A", description := "d",
                               status := some "To Do",
                               deadline := some "2025-01-01",
                               reminder_time := some "2025-01-01",
                               user_id := 1, created_at := 0,
                               updated_at := 0 }],
                   nextTaskId := 2 } 1 1 9
          { title := .str " New ", description := .undef,
            status := .str "Done", deadline := .undef,
            reminder_time := .undef } =
        ({ tasks := [{ id := 1, title := "A", description := "d",
                       status := some "To Do",
                       deadline := some "2025-01-01",
                       reminder_time := some "2025-01-01",
                       user_id := 1, created_at := 0,
                       updated_at := 0 }],
           nextTaskId := 2 },
         { status := 400, success := false,
           message := some "No fields to update", data := none })) :=
  updateTask_frame
    { tasks := [{ id := 1, title := "A", description := "d",
                  status := some "To Do", deadline := some "2025-01-01",
                  reminder_time := some "2025-01-01", user_id := 1,
                  created_at := 0, updated_at := 0 }],
      nextTaskId := 2 } 1 1 9
    { title := .str " New ", description := .undef, status := .str "Done",
      deadline := .undef, reminder_time := .undef }
    { id := 1, title := "A", description := "d", status := some "To Do",
      deadline := some "2025-01-01", reminder_time := some "2025-01-01",
      user_id := 1, created_at := 0, updated_at := 0 }
    (by decide) (by decide) (by decide) (fun h => by decide) (fun h => by decide)

theorem find?_append_none {α : Type} {l1 : List α} (l2 : List α) {p : α → Bool}
    (h : l1.find? p = none) : (l1 ++ l2).find? p = l2.find? p := by
  induction l1 with
  | nil => simp
  | cons a l ih =>
    rw [List.find?_cons] at h
    rw [List.cons_append, List.find?_cons]
    by_cases pa : p a = true
    · simp [pa] at h
    · have pa' : p a = false := by simpa using pa
      simp only [pa'] at h ⊢
      exact ih h

/-- Inversion of a successful registration: a 201 answer means every
guard passed — in particular the duplicate check on the sanitized
lowercased email found nothing — and exactly one row, carrying the
sanitized fields and the freshly issued token, was appended. -/
theorem register_success_inv (hash : String → String) (secret : String)
    (now : Nat) (store store1 : UserStore) (r : RegisterReq) (resp : AuthResp)
    (hreg : register hash secret now store r = (store1, resp))
    (h201 : resp.status = 201) :
    store.users.find?
      (fun u => u.email == jsToLower (sanitizeInput r.email.getStr)) = none ∧
    (jsToLower (sanitizeInput r.email.getStr)).length ≠ 0 ∧
    jsIncludes (jsToLower (sanitizeInput r.email.getStr)) '@' = true ∧
    store1.users = store.users ++
      [{ id := store.nextUserId, name := sanitizeInput r.name.getStr,
         email := jsToLower (sanitizeInput r.email.getStr),
         password := hash r.password.getStr, created_at := now }] ∧
    store1.nextUserId = store.nextUserId + 1 ∧
    resp.data = some { userId := store.nextUserId,
                       name := sanitizeInput r.name.getStr,
                       email := jsToLower (sanitizeInput r.email.getStr),
                       token := generateToken store.nextUserId secret now,
                       createdAt := now } := by
  simp only [register] at hreg
  split at hreg
  · injection hreg with hs hr
    rw [← hr] at h201
    simp at h201
  · split at hreg
    · injection hreg with hs hr
      rw [← hr] at h201
      simp at h201
    · split at hreg
      · injection hreg with hs hr
        rw [← hr] at h201
        simp at h201
      · split at hreg
        · injection hreg with hs hr
          rw [← hr] at h201
          simp at h201
        · split at hreg
          · injection hreg with hs hr
            rw [← hr] at h201
            simp at h201
          · split at hreg
            · injection hreg with hs hr
              rw [← hr] at h201
              simp at h201
            · split at hreg
              · injection hreg with hs hr
                rw [← hr] at h201
                simp at h201
              · injection hreg with hs hr
                have hfind : store.users.find?
                    (fun u => u.email == jsToLower (sanitizeInput r.email.getStr)) =
                      none := by
                  assumption
                have hmail : ¬ ((jsToLower (sanitizeInput r.email.getStr)).length = 0 ∨
                    ¬ jsIncludes (jsToLower (sanitizeInput r.email.getStr)) '@' = true) := by
                  assumption
                push_neg at hmail
                refine ⟨hfind, hmail.1, hmail.2, ?_, ?_, ?_⟩
                · rw [← hs]
                · rw [← hs]
                · rw [← hr]

/-- C7: if a registration succeeds (201), then any second registration
whose email sanitizes and lowercases to the same normalized address —
and which passes the validation and pre-duplicate guards of the
handler — fails with the 409 `USER_EXISTS` response and leaves the
user store unchanged: the duplicate check finds the row the first
registration inserted. -/
theorem register_duplicateEmail_conflict (hash : String → String)
    (secret : String) (now1 now2 : Nat) (store store1 : UserStore)
    (r1 r2 : RegisterReq) (resp1 : AuthResp)
    (hreg1 : register hash secret now1 store r1 = (store1, resp1))
    (h201 : resp1.status = 201)
    (hemail : jsToLower (sanitizeInput r2.email.getStr) =
      jsToLower (sanitizeInput r1.email.getStr))
    (hv2 : validateRegistration r2 = [])
    (hname2 : ¬ (sanitizeInput r2.name.getStr).length < 2)
    (hpw2 : ¬ r2.password.getStr.length < 6)
    (hcf2 : r2.password = r2.confirmPassword) :
    register hash secret now2 store1 r2 =
      (store1,
       { status := 409, success := false,
         message := "User with this email already exists",
         code := some "USER_EXISTS", errors := [], data := none }) := by
  obtain ⟨hfindNone, hlen1, hat1, husers, -, -⟩ :=
    register_success_inv hash secret now1 store store1 r1 resp1 hreg1 h201
  simp only [register]
  rw [hv2]
  rw [if_neg (by simp)]
  rw [if_neg hname2]
  rw [hemail]
  have hm : ¬ ((jsToLower (sanitizeInput r1.email.getStr)).length = 0 ∨
      ¬ jsIncludes (jsToLower (sanitizeInput r1.email.getStr)) '@' = true) := by
    push_neg
    exact ⟨hlen1, hat1⟩
  rw [if_neg hm]
  rw [if_neg hpw2]
  rw [if_neg (by simpa using hcf2)]
  rw [husers, find?_append_none _ hfindNone]
  simp [List.find?]

/-- Witness for C7: registering `ann@x.com` and then `ANN@x.com`. -/
theorem register_duplicateEmail_conflict_witness :
    register (fun p => String.append "H" p) "s" 9
      { users := [{ id := 1, name := "Ann", email := "ann@x.com",
                    password := "Habcdef", created_at := 7 }],
        nextUserId := 2 }
      { name := .str "Bob", email := .str "ANN@x.com",
        password := .str "Xy1234", confirmPassword := .str "Xy1234" } =
      ({ users := [{ id := 1, name := "Ann", email := "ann@x.com",
                     password := "Habcdef", created_at := 7 }],
         nextUserId := 2 },
       { status := 409, success := false,
         message := "User with this email already exists",
         code := some "USER_EXISTS", errors := [], data := none }) :=
  register_duplicateEmail_conflict (fun p => String.append "H" p) "s" 7 9
    { users := [], nextUserId := 1 }
    { users := [{ id := 1, name := "Ann", email := "ann@x.com",
                  password := "Habcdef", created_at := 7 }],
      nextUserId := 2 }
    { name := .str "Ann", email := .str "ann@x.com",
      password := .str "abcdef", confirmPassword := .str "abcdef" }
    { name := .str "Bob", email := .str "ANN@x.com",
      password := .str "Xy1234", confirmPassword := .str "Xy1234" }
    { status := 201, success := true,
      message := "User registered successfully", code := none, errors := [],
      data := some { userId := 1, name := "Ann", email := "ann@x.com",
                     token := { payload := { userId := 1, iat := 7,
                                             type := "access" },
                                exp := 86407, issuer := "task-manager-api",
                                audience := "task-manager-users",
                                secret := "s" },
                     createdAt := 7 } }
    (by decide) (by decide) (by decide) (by decide) (by decide) (by decide)
    (by decide)

/-- C8: the token a successful registration returns, presented as
`Authorization: Bearer <token>` to the authentication middleware with
the same secret before expiry, verifies and attaches exactly the
created user's identifier (with the issue and expiry timestamps) to
the request; `authenticateToken` takes no user store at all — identity
comes from the token claims alone.  `enc` is the compact serialization
of the returned token per the library contract (`decode enc` recovers
it; base64url text contains no space). -/
theorem registerToken_roundTrip (hash : String → String) (secret : String)
    (now now2 : Nat) (store store1 : UserStore) (r : RegisterReq)
    (resp : AuthResp) (d : AuthData)
    (decode : List Char → Option Token) (enc : List Char)
    (hreg : register hash secret now store r = (store1, resp))
    (h201 : resp.status = 201)
    (hdata : resp.data = some d)
    (hdec : decode enc = some d.token)
    (hnsp : ' ' ∉ enc) (hne : enc ≠ [])
    (hexp : now2 < d.token.exp) :
    authenticateToken
      (some ⟨'B' :: 'e' :: 'a' :: 'r' :: 'e' :: 'r' :: ' ' :: enc⟩)
      decode secret now2 =
      AuthOutcome.ok d.userId d.token.payload.iat d.token.exp ∧
    d.token.payload.userId = d.userId ∧ d.token.payload.iat = now ∧
    (∃ u, store1.users = store.users ++ [u] ∧ u.id = d.userId) := by
  obtain ⟨-, -, -, husers, -, hdat2⟩ :=
    register_success_inv hash secret now store store1 r resp hreg h201
  rw [hdat2] at hdata
  injection hdata with hd
  subst hd
  refine ⟨?_, rfl, rfl, ⟨_, husers, rfl⟩⟩
  unfold authenticateToken
  dsimp only
  rw [splitSp_bearer, splitSp_no_space hnsp]
  dsimp only [List.get?]
  rw [if_neg hne, hdec]
  dsimp only [generateToken, jwtVerify]
  rw [if_neg (by simp)]
  have hle : ¬ now + 86400 ≤ now2 := by
    simp only [generateToken] at hexp
    omega
  rw [if_neg hle]

/-- Witness for C8: the registration of `Ann` at time 7 with secret
`s`; its token serializes to the one-character text `T`. -/
theorem registerToken_roundTrip_witness :
    authenticateToken (some ⟨'B' :: 'e' :: 'a' :: 'r' :: 'e' :: 'r' :: ' ' :: ['T']⟩)
      (fun cs => if cs = ['T'] then some (generateToken 1 "s" 7) else none)
      "s" 100 =
      AuthOutcome.ok
        (AuthData.mk 1 "Ann" "ann@x.com" (generateToken 1 "s" 7) 7).userId
        (AuthData.mk 1 "Ann" "ann@x.com" (generateToken 1 "s" 7) 7).token.payload.iat
        (AuthData.mk 1 "Ann" "ann@x.com" (generateToken 1 "s" 7) 7).token.exp ∧
    (AuthData.mk 1 "Ann" "ann@x.com" (generateToken 1 "s" 7) 7).token.payload.userId =
      (AuthData.mk 1 "Ann" "ann@x.com" (generateToken 1 "s" 7) 7).userId ∧
    (AuthData.mk 1 "Ann" "ann@x.com" (generateToken 1 "s" 7) 7).token.payload.iat = 7 ∧
    (∃ u, (UserStore.mk [{ id := 1, name := "Ann", email := "ann@x.com",
                           password := "Habcdef", created_at := 7 }] 2).users =
      (UserStore.mk [] 1).users ++ [u] ∧
      u.id = (AuthData.mk 1 "Ann" "ann@x.com" (generateToken 1 "s" 7) 7).userId) :=
  registerToken_roundTrip (fun p => String.append "H" p) "s" 7 100
    { users := [], nextUserId := 1 }
    { users := [{ id := 1, name := "Ann", email := "ann@x.com",
                  password := "Habcdef", created_at := 7 }],
      nextUserId := 2 }
    { name := .str "Ann", email := .str "ann@x.com",
      password := .str "abcdef", confirmPassword := .str "abcdef" }
    { status := 201, success := true,
      message := "User registered successfully", code := none, errors := [],
      data := some (AuthData.mk 1 "Ann" "ann@x.com" (generateToken 1 "s" 7) 7) }
    (AuthData.mk 1 "Ann" "ann@x.com" (generateToken 1 "s" 7) 7)
    (fun cs => if cs = ['T'] then some (generateToken 1 "s" 7) else none)
    ['T'] (by decide) (by decide) (by decide) (by decide) (by decide)
    (by decide) (by decide)

theorem dueReminder_iff {t : Task} {now : String} :
    dueReminder t now = true ↔
      (∃ rt, t.reminder_time = some rt ∧ sqliteTextLe rt.data now.data = true) ∧
      (∃ st, t.status = some st ∧ st ≠ "Done") := by
  unfold dueReminder
  rcases hr : t.reminder_time with _ | rt <;>
    rcases hs : t.status with _ | st <;>
      simp [hr, hs, bne_iff_ne]

theorem sqliteTextLe_trans : ∀ {a b c : List Char},
    sqliteTextLe a b = true → sqliteTextLe b c = true →
      sqliteTextLe a c = true := by
  intro a
  induction a with
  | nil =>
    intro b c h1 h2
    rfl
  | cons x xs ih =>
    intro b c h1 h2
    match b with
    | [] => simp [sqliteTextLe] at h1
    | y :: ys =>
      match c with
      | [] => simp [sqliteTextLe] at h2
      | z :: zs =>
        rw [sqliteTextLe] at h1 h2 ⊢
        by_cases hxy : x < y
        · rw [if_pos hxy] at h1
          by_cases hyz : y < z
          · rw [if_pos (lt_trans hxy hyz)]
          · by_cases hzy : z < y
            · rw [if_neg hyz, if_pos hzy] at h2
              exact absurd h2 (by simp)
            · have hyzeq : y = z := le_antisymm (not_lt.mp hzy) (not_lt.mp hyz)
              rw [if_pos (hyzeq ▸ hxy)]
        · by_cases hyx : y < x
          · rw [if_neg hxy, if_pos hyx] at h1
            exact absurd h1 (by simp)
          · have hxyeq : x = y := le_antisymm (not_lt.mp hyx) (not_lt.mp hxy)
            rw [if_neg hxy, if_neg hyx] at h1
            by_cases hyz : y < z
            · rw [if_pos (hxyeq ▸ hyz)]
            · by_cases hzy : z < y
              · rw [if_neg hyz, if_pos hzy] at h2
                exact absurd h2 (by simp)
              · have hyzeq : y = z := le_antisymm (not_lt.mp hzy) (not_lt.mp hyz)
                rw [if_neg hyz, if_neg hzy] at h2
                have hxz : ¬ x < z := by
                  rw [hxyeq, hyzeq]
                  exact lt_irrefl z
                have hzx : ¬ z < x := by
                  rw [hxyeq, hyzeq]
                  exact lt_irrefl z
                rw [if_neg hxz, if_neg hzx]
                exact ih h1 h2

theorem find?_user_iff {users : List User} {uid : Nat} {u : User}
    (huser : ∀ u1 ∈ users, ∀ u2 ∈ users, u1.id = u2.id → u1 = u2) :
    users.find? (fun x => x.id == uid) = some u ↔ u ∈ users ∧ u.id = uid := by
  constructor
  · intro h
    exact ⟨List.mem_of_find?_eq_some h, by simpa using List.find?_some h⟩
  · rintro ⟨hmem, hid⟩
    rcases hf : users.find? (fun x => x.id == uid) with _ | v
    · rw [List.find?_eq_none] at hf
      exact absurd (by simpa using hid) (by simpa using hf u hmem)
    · have hv1 := List.mem_of_find?_eq_some hf
      have hv2 : v.id = uid := by simpa using List.find?_some hf
      have hvu : v = u := huser v hv1 u hmem (by rw [hv2, hid])
      rw [← hvu]
      exact hf

/-- Membership in one sweep: `(t, e)` is reported at time `now` iff
`t` is stored, its reminder is set and due, its status is a non-`NULL`
value other than `Done` (SQL three-valued logic: `status != 'Done'` is
not true for `NULL`), and `e` is the email of its (unique) owning
user. -/
theorem reminderSweep_mem {tasks : List Task} {users : List User}
    {now : String} {t : Task} {e : String}
    (huser : ∀ u1 ∈ users, ∀ u2 ∈ users, u1.id = u2.id → u1 = u2) :
    (t, e) ∈ reminderSweep tasks users now ↔
      (t ∈ tasks ∧
       (∃ rt, t.reminder_time = some rt ∧ sqliteTextLe rt.data now.data = true) ∧
       (∃ st, t.status = some st ∧ st ≠ "Done") ∧
       ∃ u ∈ users, u.id = t.user_id ∧ u.email = e) := by
  unfold reminderSweep
  rw [List.mem_filterMap]
  constructor
  · rintro ⟨a, ha, hfa⟩
    rcases hu : users.find? (fun u => u.id == a.user_id) with _ | u
    · rw [hu] at hfa
      exact Option.noConfusion hfa
    · rw [hu] at hfa
      have hfa2 : (a, u.email) = (t, e) := Option.some.inj hfa
      have hta : a = t := congrArg Prod.fst hfa2
      have hea : u.email = e := congrArg Prod.snd hfa2
      subst hta
      obtain ⟨hamem, hdue⟩ := List.mem_filter.mp ha
      obtain ⟨hrt, hst⟩ := dueReminder_iff.mp hdue
      obtain ⟨humem, huid⟩ := (find?_user_iff huser).mp hu
      exact ⟨hamem, hrt, hst, u, humem, huid, hea⟩
  · rintro ⟨hmem, hrt, hst, u, humem, huid, huemail⟩
    refine ⟨t, ?_, ?_⟩
    · rw [List.mem_filter]
      exact ⟨hmem, dueReminder_iff.mpr ⟨hrt, hst⟩⟩
    · rw [(find?_user_iff huser).mpr ⟨humem, huid⟩]
      show some (t, u.email) = some (t, e)
      rw [huemail]

/-- C9 counterexample: a stored task with a due reminder and SQL
`NULL` status — reachable through the wired route, since `createTask`
with a `null` status bypasses the truthiness guard and stores `NULL` —
has a status that is not `Done`, yet `t.status != 'Done'` is not true
for `NULL` in SQL and the sweep reports nothing, refuting \"selects
exactly the tasks whose reminder_time is ≤ the current time and whose
status is not 'Done'\". -/
theorem reminderSweep_nullStatus_counterexample :
    (createTask { tasks := [], nextTaskId := 1 } 1 0
      { title := .str "A", description := .undef, status := .null,
        deadline := .undef, reminder_time := .str "2025-01-01" }).2.status = 201 ∧
    (createTask { tasks := [], nextTaskId := 1 } 1 0
      { title := .str "A", description := .undef, status := .null,
        deadline := .undef, reminder_time := .str "2025-01-01" }).1.tasks =
      [{ id := 1, title := "A", description := "", status := none,
         deadline := none, reminder_time := some "2025-01-01", user_id := 1,
         created_at := 0, updated_at := 0 }] ∧
    ({ id := 1, title := "A", description := "", status := none,
       deadline := none, reminder_time := some "2025-01-01", user_id := 1,
       created_at := 0, updated_at := 0 } : Task).status ≠ some "Done" ∧
    sqliteTextLe "2025-01-01".data "2025-06-01".data = true ∧
    reminderSweep
      [{ id := 1, title := "A", description := "", status := none,
         deadline := none, reminder_time := some "2025-01-01", user_id := 1,
         created_at := 0, updated_at := 0 }]
      [{ id := 1, name := "Ann", email := "ann@x.com", password := "H",
         created_at := 0 }] "2025-06-01" = [] := by
  exact ⟨by decide, by decide, by decide, by decide, by decide⟩

/-- C9 (amended): on every sweep the job — a pure read — selects
exactly the stored tasks whose reminder time is set and `<=` the sweep
time and whose status is a non-`NULL` value other than `Done`, joined
with the (unique) owning user's email; rows whose status is `NULL`
(reachable via a `null` status in create/update) are excluded by SQL
three-valued logic even though their status is not `Done`.  Selection
over the unchanged store persists at every later sweep time, and only
turning the status to `Done` (or `NULL`), clearing the reminder, or
moving it past the sweep time removes a task from the report. -/
theorem reminderSweep_selection (tasks : List Task) (users : List User)
    (now later : String)
    (huser : ∀ u1 ∈ users, ∀ u2 ∈ users, u1.id = u2.id → u1 = u2) :
    (∀ t e, (t, e) ∈ reminderSweep tasks users now ↔
      (t ∈ tasks ∧
       (∃ rt, t.reminder_time = some rt ∧ sqliteTextLe rt.data now.data = true) ∧
       (∃ st, t.status = some st ∧ st ≠ "Done") ∧
       ∃ u ∈ users, u.id = t.user_id ∧ u.email = e)) ∧
    (sqliteTextLe now.data later.data = true →
      ∀ p ∈ reminderSweep tasks users now,
        p ∈ reminderSweep tasks users later) ∧
    (∀ t e, t.status = some "Done" → (t, e) ∉ reminderSweep tasks users now) ∧
    (∀ t e, t.status = none → (t, e) ∉ reminderSweep tasks users now) ∧
    (∀ t e, t.reminder_time = none → (t, e) ∉ reminderSweep tasks users now) ∧
    (∀ t e rt, t.reminder_time = some rt →
      ¬ sqliteTextLe rt.data now.data = true →
      (t, e) ∉ reminderSweep tasks users now) := by
  refine ⟨fun t e => reminderSweep_mem huser, ?_, ?_, ?_, ?_, ?_⟩
  · intro hle p hp
    obtain ⟨t, e⟩ := p
    rw [reminderSweep_mem huser] at hp
    obtain ⟨hmem, ⟨rt, hrt, hrle⟩, hst, hu⟩ := hp
    rw [reminderSweep_mem huser]
    exact ⟨hmem, ⟨rt, hrt, sqliteTextLe_trans hrle hle⟩, hst, hu⟩
  · intro t e hdone hc
    rw [reminderSweep_mem huser] at hc
    obtain ⟨-, -, ⟨st, hst, hstne⟩, -⟩ := hc
    rw [hdone] at hst
    exact hstne (Option.some.inj hst).symm
  · intro t e hnull hc
    rw [reminderSweep_mem huser] at hc
    obtain ⟨-, -, ⟨st, hst, -⟩, -⟩ := hc
    rw [hnull] at hst
    exact Option.noConfusion hst
  · intro t e hnone hc
    rw [reminderSweep_mem huser] at hc
    obtain ⟨-, ⟨rt, hrt, -⟩, -, -⟩ := hc
    rw [hnone] at hrt
    exact Option.noConfusion hrt
  · intro t e rt hrt hnle hc
    rw [reminderSweep_mem huser] at hc
    obtain ⟨-, ⟨rt2, hrt2, hle2⟩, -, -⟩ := hc
    rw [hrt] at hrt2
    exact hnle ((Option.some.inj hrt2) ▸ hle2)

/-- Witness for the amended C9: one due task of user 1 swept at two
increasing times. -/
theorem reminderSweep_selection_witness :
    (∀ t e, (t, e) ∈ reminderSweep
        [{ id := 1, title := "A", description := "", status := some "To Do",
           deadline := none, reminder_time := some "2025-01-01",
           user_id := 1, created_at := 0, updated_at := 0 }]
        [{ id := 1, name := "Ann", email := "ann@x.com", password := "H",
           created_at := 0 }] "2025-06-01" ↔
      (t ∈ [({ id := 1, title := "A", description := "",
               status := some "To Do", deadline := none,
               reminder_time := some "2025-01-01", user_id := 1,
               created_at := 0, updated_at := 0 } : Task)] ∧
       (∃ rt, t.reminder_time = some rt ∧
         sqliteTextLe rt.data "2025-06-01".data = true) ∧
       (∃ st, t.status = some st ∧ st ≠ "Done") ∧
       ∃ u ∈ [({ id := 1, name := "Ann", email := "ann@x.com",
                 password := "H", created_at := 0 } : User)],
         u.id = t.user_id ∧ u.email = e)) ∧
    (sqliteTextLe "2025-06-01".data "2025-07-01".data = true →
      ∀ p ∈ reminderSweep
        [{ id := 1, title := "A", description := "", status := some "To Do",
           deadline := none, reminder_time := some "2025-01-01",
           user_id := 1, created_at := 0, updated_at := 0 }]
        [{ id := 1, name := "Ann", email := "ann@x.com", password := "H",
           created_at := 0 }] "2025-06-01",
      p ∈ reminderSweep
        [{ id := 1, title := "A", description := "", status := some "To Do",
           deadline := none, reminder_time := some "2025-01-01",
           user_id := 1, created_at := 0, updated_at := 0 }]
        [{ id := 1, name := "Ann", email := "ann@x.com", password := "H",
           created_at := 0 }] "2025-07-01") ∧
    (∀ t e, t.status = some "Done" → (t, e) ∉ reminderSweep
        [{ id := 1, title := "A", description := "", status := some "To Do",
           deadline := none, reminder_time := some "2025-01-01",
           user_id := 1, created_at := 0, updated_at := 0 }]
        [{ id := 1, name := "Ann", email := "ann@x.com", password := "H",
           created_at := 0 }] "2025-06-01") ∧
    (∀ t e, t.status = none → (t, e) ∉ reminderSweep
        [{ id := 1, title := "A", description := "", status := some "To Do",
           deadline := none, reminder_time := some "2025-01-01",
           user_id := 1, created_at := 0, updated_at := 0 }]
        [{ id := 1, name := "Ann", email := "ann@x.com", password := "H",
           created_at := 0 }] "2025-06-01") ∧
    (∀ t e, t.reminder_time = none → (t, e) ∉ reminderSweep
        [{ id := 1, title := "A", description := "", status := some "To Do",
           deadline := none, reminder_time := some "2025-01-01",
           user_id := 1, created_at := 0, updated_at := 0 }]
        [{ id := 1, name := "Ann", email := "ann@x.com", password := "H",
           created_at := 0 }] "2025-06-01") ∧
    (∀ t e rt, t.reminder_time = some rt →
      ¬ sqliteTextLe rt.data "2025-06-01".data = true →
      (t, e) ∉ reminderSweep
        [{ id := 1, title := "A", description := "", status := some "To Do",
           deadline := none, reminder_time := some "2025-01-01",
           user_id := 1, created_at := 0, updated_at := 0 }]
        [{ id := 1, name := "Ann", email := "ann@x.com", password := "H",
           created_at := 0 }] "2025-06-01") :=
  reminderSweep_selection
    [{ id := 1, title := "A", description := "", status := some "To Do",
       deadline := none, reminder_time := some "2025-01-01",
       user_id := 1, created_at := 0, updated_at := 0 }]
    [{ id := 1, name := "Ann", email := "ann@x.com", password := "H",
       created_at := 0 }]
    "2025-06-01" "2025-07-01" (by decide)

/-- C10: `sanitizeInput` always yields a string free of `<` and `>`
with no leading or trailing whitespace (the later regex passes only
remove characters, and the trim runs last); and in a successful
registration the stored row carries exactly the sanitized name and the
sanitized lowercased email, the duplicate check having been run
against that same sanitized email. -/
theorem sanitizeInput_properties (s : String) (hash : String → String)
    (secret : String) (now : Nat) (store store1 : UserStore)
    (r : RegisterReq) (resp : AuthResp)
    (hreg : register hash secret now store r = (store1, resp))
    (h201 : resp.status = 201) :
    (∀ c ∈ (sanitizeInput s).data, c ≠ '<' ∧ c ≠ '>') ∧
    (sanitizeInput s).data.head?.all (fun c => !c.isWhitespace) = true ∧
    (sanitizeInput s).data.getLast?.all (fun c => !c.isWhitespace) = true ∧
    store.users.find?
      (fun u => u.email == jsToLower (sanitizeInput r.email.getStr)) = none ∧
    store1.users = store.users ++
      [{ id := store.nextUserId, name := sanitizeInput r.name.getStr,
         email := jsToLower (sanitizeInput r.email.getStr),
         password := hash r.password.getStr, created_at := now }] := by
  obtain ⟨hfind, -, -, husers, -, -⟩ :=
    register_success_inv hash secret now store store1 r resp hreg h201
  refine ⟨?_, ?_, ?_, hfind, husers⟩
  · intro c hc
    have h1 : c ∈ removeOnAttrs (removeJsProto (stripAngles s.data)) :=
      mem_trimEnds hc
    have h4 := (List.mem_filter.mp
      (mem_removeJsProto (mem_removeOnAttrs h1))).2
    simp only [Bool.and_eq_true, decide_eq_true_eq] at h4
    exact h4
  · rcases hh : (sanitizeInput s).data.head? with _ | c
    · rfl
    · have hw := trimEnds_head_not_ws hh
      simp [Option.all, hw]
  · rcases hh : (sanitizeInput s).data.getLast? with _ | c
    · rfl
    · have hw := trimEnds_getLast_not_ws hh
      simp [Option.all, hw]

/-- Witness for C10: the input `  <b>hi</b>  ` and the registration of
`Ann`. -/
theorem sanitizeInput_properties_witness :
    (∀ c ∈ (sanitizeInput "  <b>hi</b>  ").data, c ≠ '<' ∧ c ≠ '>') ∧
    (sanitizeInput "  <b>hi</b>  ").data.head?.all
      (fun c => !c.isWhitespace) = true ∧
    (sanitizeInput "  <b>hi</b>  ").data.getLast?.all
      (fun c => !c.isWhitespace) = true ∧
    (UserStore.mk [] 1).users.find?
      (fun u => u.email ==
        jsToLower (sanitizeInput (JsonVal.str "ann@x.com").getStr)) = none ∧
    (UserStore.mk [{ id := 1, name := "Ann", email := "ann@x.com",
                     password := "Habcdef", created_at := 7 }] 2).users =
      (UserStore.mk [] 1).users ++
      [{ id := (UserStore.mk [] 1).nextUserId,
         name := sanitizeInput (JsonVal.str "Ann").getStr,
         email := jsToLower (sanitizeInput (JsonVal.str "ann@x.com").getStr),
         password := (fun p => String.append "H" p)
           (JsonVal.str "abcdef").getStr,
         created_at := 7 }] :=
  sanitizeInput_properties "  <b>hi</b>  " (fun p => String.append "H" p)
    "s" 7 { users := [], nextUserId := 1 }
    { users := [{ id := 1, name := "Ann", email := "ann@x.com",
                  password := "Habcdef", created_at := 7 }],
      nextUserId := 2 }
    { name := .str "Ann", email := .str "ann@x.com",
      password := .str "abcdef", confirmPassword := .str "abcdef" }
    { status := 201, success := true,
      message := "User registered successfully", code := none, errors := [],
      data := some { userId := 1, name := "Ann", email := "ann@x.com",
                     token := { payload := { userId := 1, iat := 7,
                                             type := "access" },
                                exp := 86407, issuer := "task-manager-api",
                                audience := "task-manager-users",
                                secret := "s" },
                     createdAt := 7 } }
    (by decide) (by decide)

end TaskManager
